import Mathlib

/-!
Verification of the crowd-state feed / reconciliation / fallback core of
`src/components/3DSimulation.tsx` against its specification.

The embedding is shallow: JavaScript values flowing through the WebSocket
message handler are modelled by an inductive `JsVal` type with JS truthiness;
the React state updates of `Simulation3D` become explicit state-passing
functions; `Math.random()` results are threaded as explicit rational streams;
the tile batch of `SatelliteGround` becomes a list of integer tile addresses
and an `Except`-valued fetch/join.
-/

/-- A JavaScript runtime value, as far as the live-feed handler can observe
it: `undef` is `undefined` (also the result of reading an absent property),
and the remaining constructors cover null, booleans, finite numbers, strings,
arrays and plain objects. -/
inductive JsVal where
  | undef : JsVal
  | null : JsVal
  | bool : Bool → JsVal
  | num : ℚ → JsVal
  | str : String → JsVal
  | arr : List JsVal → JsVal
  | obj : List (String × JsVal) → JsVal

/-- JS truthiness: `undefined`, `null`, `false`, `0` and `""` are falsy;
every array and object (even empty) is truthy. -/
def JsVal.truthy : JsVal → Bool
  | .undef => false
  | .null => false
  | .bool b => b
  | .num q => q != 0
  | .str s => s != ""
  | .arr _ => true
  | .obj _ => true

/-- A parsed inbound live-feed message, as read by `ws.onmessage`:
`data.locations`, `data.heatZones`, `data.crowdParticles`. A key that is
absent from the JSON object reads as `undefined`. -/
structure LiveMsg where
  locations : JsVal
  heatZones : JsVal
  crowdParticles : JsVal

/-- The React state of `Simulation3D` that the message handler can touch,
plus the connection-open flag (the handler never closes the socket). -/
structure StoreState where
  locations : JsVal
  heatZones : JsVal
  crowdParticles : JsVal
  wsOpen : Bool

/-- The body of the `try` block of `ws.onmessage`:
`if (data.locations) setLocations(data.locations);` etc. — each field is
replaced exactly when its incoming value is truthy. -/
def handleParsed (s : StoreState) (m : LiveMsg) : StoreState :=
  { s with
    locations := if m.locations.truthy then m.locations else s.locations
    heatZones := if m.heatZones.truthy then m.heatZones else s.heatZones
    crowdParticles :=
      if m.crowdParticles.truthy then m.crowdParticles else s.crowdParticles }

/-- One `ws.onmessage` invocation. `JSON.parse` either throws (`.error`) or
yields a value; the surrounding `try/catch` turns a throw into a silent
no-op (the `catch` block is empty but for a comment). The second component
is the list of log lines the handler emits. -/
def onMessage (s : StoreState) (parsed : Except Unit LiveMsg) :
    StoreState × List String :=
  match parsed with
  | .error _ => (s, [])
  | .ok m => (handleParsed s m, [])

/-- Risk level of a location marker. -/
inductive RiskLevel where
  | low | medium | high | critical

/-- `LocationData` of the source: a named point with a risk level. -/
structure LocationData where
  position : ℚ × ℚ × ℚ
  label : String
  riskLevel : RiskLevel

/-- `HeatZoneData` of the source: a circular intensity field. -/
structure HeatZoneData where
  center : ℚ × ℚ × ℚ
  radius : ℚ
  intensity : ℚ

/-- `ParticleData` of the source: one crowd-flow sample. -/
structure ParticleData where
  position : ℚ × ℚ × ℚ
  color : String
  speed : ℚ

/-- The typed React state of `Simulation3D`: the three snapshot fields
(each `undefined` until seeded, hence `Option`) and the `isLive` flag
(`false` renders the `Simulated` badge, `true` renders `Real-time`). -/
structure SimSnapshot where
  locations : Option (List LocationData)
  heatZones : Option (List HeatZoneData)
  particles : Option (List ParticleData)
  isLive : Bool

/-- The initial React state: all three fields `undefined`, not live. -/
def initState : SimSnapshot :=
  { locations := none, heatZones := none, particles := none, isLive := false }

/-- `(Math.random() - 0.5) * 0.1`, the per-zone intensity perturbation. -/
def intensityDelta (r : ℚ) : ℚ := (r - 1/2) * (1/10)

/-- `(Math.random() - 0.5) * 0.02`, the per-axis particle perturbation. -/
def posDelta (r : ℚ) : ℚ := (r - 1/2) * (1/50)

/-- One zone of the fallback tick:
`intensity: Math.max(0.05, Math.min(1, z.intensity + (Math.random() - 0.5) * 0.1))`,
with the `Math.random()` result passed in as `r`. -/
def tickZone (r : ℚ) (z : HeatZoneData) : HeatZoneData :=
  { z with intensity := max (1/20) (min 1 (z.intensity + intensityDelta r)) }

/-- One particle of the fallback tick: x and z are each perturbed by an
independent `(Math.random() - 0.5) * 0.02` and clamped to `[-2, 2]`;
y is untouched. -/
def tickParticle (rx rz : ℚ) (p : ParticleData) : ParticleData :=
  { p with position :=
      (max (-2) (min 2 (p.position.1 + posDelta rx)),
       p.position.2.1,
       max (-2) (min 2 (p.position.2.2 + posDelta rz))) }

/-- `(prev ?? []).map(...)` over zones, drawing one fresh random per element;
`i` is the index of the next element in the random stream `r`. -/
def tickZonesList (r : Nat → ℚ) : Nat → List HeatZoneData → List HeatZoneData
  | _, [] => []
  | i, z :: zs => tickZone (r i) z :: tickZonesList r (i + 1) zs

/-- `(prev ?? []).map(...)` over particles, drawing two fresh randoms per
element from the streams `rx` and `rz`. -/
def tickParticlesList (rx rz : Nat → ℚ) :
    Nat → List ParticleData → List ParticleData
  | _, [] => []
  | i, p :: ps => tickParticle (rx i) (rz i) p :: tickParticlesList rx rz (i + 1) ps

/-- The `setHeatZones` updater of the fallback interval:
map over `prev ?? []`, and `return arr.length ? arr : prev`. -/
def tickHeatZones (r : Nat → ℚ) (prev : Option (List HeatZoneData)) :
    Option (List HeatZoneData) :=
  let arr := tickZonesList r 0 (prev.getD [])
  if arr.length ≠ 0 then some arr else prev

/-- The `setCrowdParticles` updater of the fallback interval. -/
def tickCrowdParticles (rx rz : Nat → ℚ) (prev : Option (List ParticleData)) :
    Option (List ParticleData) :=
  let arr := tickParticlesList rx rz 0 (prev.getD [])
  if arr.length ≠ 0 then some arr else prev

/-- One firing of the fallback `setInterval` callback: perturb the heat
zones with random stream `rz` and the particles with streams `rpx`, `rpz`. -/
def fallbackTick (rz rpx rpz : Nat → ℚ) (s : SimSnapshot) : SimSnapshot :=
  { s with
    heatZones := tickHeatZones rz s.heatZones
    particles := tickCrowdParticles rpx rpz s.particles }

/-- `n` successive firings of the fallback tick; tick number `t` uses the
random streams `rz t`, `rpx t`, `rpz t`. -/
def iterTicks (rz rpx rpz : Nat → Nat → ℚ) : Nat → SimSnapshot → SimSnapshot
  | 0, s => s
  | n + 1, s => fallbackTick (rz n) (rpx n) (rpz n) (iterTicks rz rpx rpz n s)

/-- The four seed locations of `bootstrapDefaults`. -/
def seedLocations : List LocationData :=
  [ { position := (-1, 0, -1), label := "Ramkund", riskLevel := .high },
    { position := (1, 0, -1), label := "Triveni", riskLevel := .critical },
    { position := (0, 0, 1), label := "Kalaram", riskLevel := .medium },
    { position := (-3/2, 0, 1/2), label := "Sita Gufha", riskLevel := .low } ]

/-- The four seed heat zones of `bootstrapDefaults`. -/
def seedHeat : List HeatZoneData :=
  [ { center := (-1, 0, -1), radius := 3/10, intensity := 8/10 },
    { center := (1, 0, -1), radius := 4/10, intensity := 95/100 },
    { center := (0, 0, 1), radius := 1/4, intensity := 6/10 },
    { center := (-3/2, 0, 1/2), radius := 1/5, intensity := 3/10 } ]

/-- One seed particle of `bootstrapDefaults`: `x` and `z` uniform in
`(-2, 2)`, `y = 0.02`, intensity `0.8` inside Manhattan distance `1.5` of
the origin and `0.3` outside, colored red when intensity exceeds `0.6`,
green otherwise; speed uniform in `[1, 3)`. Particle `i` draws its three
`Math.random()` results from stream positions `3*i`, `3*i+1`, `3*i+2`. -/
def seedParticle (r : Nat → ℚ) (i : Nat) : ParticleData :=
  let x := (r (3 * i) - 1/2) * 4
  let z := (r (3 * i + 1) - 1/2) * 4
  let intensity : ℚ := if |x| + |z| < 3/2 then 8/10 else 3/10
  let color := if intensity > 6/10 then "#ef4444" else "#10b981"
  { position := (x, 1/50, z), color := color, speed := r (3 * i + 2) * 2 + 1 }

/-- The 200 seed particles of `bootstrapDefaults`. -/
def seedParticles (r : Nat → ℚ) : List ParticleData :=
  (List.range 200).map (seedParticle r)

/-- `bootstrapDefaults()`: set all three snapshot fields to the seed data.
It does not touch `isLive`. -/
def bootstrapDefaults (r : Nat → ℚ) (s : SimSnapshot) : SimSnapshot :=
  { s with
    locations := some seedLocations
    heatZones := some seedHeat
    particles := some (seedParticles r) }

/-- What the `useEffect` of `Simulation3D` installs, as a function of the
configured feed URL: a WebSocket is created exactly when a URL is
configured (`if (url)`), and the fallback `setInterval` timer is installed
exactly when no URL is configured (`if (!url)`). `isLive` starts `false`. -/
structure EffectState where
  isLive : Bool
  wsCreated : Bool
  timerOn : Bool

/-- The setup phase of the `useEffect` body for a given `VITE_SIM_WS_URL`. -/
def setupEffect (url : Option String) : EffectState :=
  { isLive := false, wsCreated := url.isSome, timerOn := url.isNone }

/-- WebSocket lifecycle events observable by the effect. -/
inductive WsEvent where
  | wsOpen | wsClose | wsError

/-- The `ws.onopen` / `ws.onclose` / `ws.onerror` handlers: they only set
`isLive`, and only exist when a socket was created. Nothing ever installs
or removes the fallback timer after setup (it is cleared only on unmount). -/
def applyWsEvent (s : EffectState) (e : WsEvent) : EffectState :=
  if s.wsCreated then
    match e with
    | .wsOpen => { s with isLive := true }
    | .wsClose => { s with isLive := false }
    | .wsError => { s with isLive := false }
  else s

/-- The effect state after setup with `url` followed by a sequence of
WebSocket events. -/
def runEffect (url : Option String) (evts : List WsEvent) : EffectState :=
  evts.foldl applyWsEvent (setupEffect url)

/-- The signed tile offsets `-tilesRadius .. tilesRadius` iterated by each
of the two nested `for` loops of `SatelliteGround`. -/
def offsets (r : Nat) : List ℤ :=
  List.map (fun i : Nat => (i : ℤ) - (r : ℤ)) (List.range (2 * r + 1))

/-- The tile addresses requested by one load, in request order: `dy` outer,
`dx` inner, each tile at `(cx + dx, cy + dy)`. -/
def tileGrid (cx cy : ℤ) (r : Nat) : List (ℤ × ℤ) :=
  (offsets r).flatMap (fun dy => (offsets r).map (fun dx => (cx + dx, cy + dy)))

/-- The rejection value of a failed tile request. -/
structure TileFetchError where
  msg : String

/-- `Promise.all` over the tile batch: every request in `tiles` is issued,
and the join yields all images only when every request succeeded; if any
request fails the whole batch rejects with a `TileFetchError` and no list
of images is produced. -/
def fetchAll {Img : Type} (fetch : ℤ × ℤ → Except TileFetchError Img) :
    List (ℤ × ℤ) → Except TileFetchError (List Img)
  | [] => .ok []
  | t :: ts =>
    match fetch t, fetchAll fetch ts with
    | .error e, _ => .error e
    | .ok _, .error e => .error e
    | .ok img, .ok imgs => .ok (img :: imgs)

/-- One `load()` of `SatelliteGround`: fetch the whole grid around the
center tile and join. -/
def composeTiles {Img : Type} (fetch : ℤ × ℤ → Except TileFetchError Img)
    (cx cy : ℤ) (r : Nat) : Except TileFetchError (List Img) :=
  fetchAll fetch (tileGrid cx cy r)

/-- What `load()` does to the held texture: on success the composited image
replaces it; on failure (`catch { /* Ignore load errors */ }`) the previous
texture is retained untouched. -/
def applyComposite {Img : Type} (prev : Option (List Img))
    (res : Except TileFetchError (List Img)) : Option (List Img) :=
  match res with
  | .ok imgs => some imgs
  | .error _ => prev

/-- `lonLatToTile` of `SatelliteGround`: the Web-Mercator tile address of a
(longitude, latitude) pair at zoom `z`. -/
noncomputable def lonLatToTile (lon lat : ℝ) (z : ℕ) : ℤ × ℤ :=
  let latRad := lat * Real.pi / 180
  let n : ℝ := 2 ^ z
  (⌊(lon + 180) / 360 * n⌋,
   ⌊(1 - Real.log (Real.tan latRad + 1 / Real.cos latRad) / Real.pi) / 2 * n⌋)

/-- A truthy JS value is neither `null` nor `undefined`. -/
theorem truthy_ne_nullish (v : JsVal) (h : v.truthy = true) :
    v ≠ .null ∧ v ≠ .undef := by
  cases v <;> simp_all [JsVal.truthy]

/-- C1: for every current snapshot and every parsed live-feed partial update
(each field absent — i.e. `undefined` — or an array), each of the three
fields {locations, heatZones, crowdParticles} that is omitted from the
partial is identical to its pre-merge value in the resulting snapshot, and
each field that is provided as an array replaces the stored field wholesale
with no per-element merging. -/
theorem reconciler_partial_merge (s : StoreState) (m : LiveMsg)
    (_hl : m.locations = .undef ∨ ∃ xs, m.locations = .arr xs)
    (_hh : m.heatZones = .undef ∨ ∃ xs, m.heatZones = .arr xs)
    (_hp : m.crowdParticles = .undef ∨ ∃ xs, m.crowdParticles = .arr xs) :
    ((m.locations = .undef → (handleParsed s m).locations = s.locations) ∧
     (∀ xs, m.locations = .arr xs → (handleParsed s m).locations = .arr xs)) ∧
    ((m.heatZones = .undef → (handleParsed s m).heatZones = s.heatZones) ∧
     (∀ xs, m.heatZones = .arr xs → (handleParsed s m).heatZones = .arr xs)) ∧
    ((m.crowdParticles = .undef →
        (handleParsed s m).crowdParticles = s.crowdParticles) ∧
     (∀ xs, m.crowdParticles = .arr xs →
        (handleParsed s m).crowdParticles = .arr xs)) := by
  refine ⟨⟨fun h => ?_, fun xs h => ?_⟩, ⟨fun h => ?_, fun xs h => ?_⟩,
    fun h => ?_, fun xs h => ?_⟩ <;> simp [handleParsed, h, JsVal.truthy]

/-- Concrete store for the C1 witness. -/
def wStoreC1 : StoreState :=
  { locations := .arr [.str "keep"], heatZones := .arr [], crowdParticles := .arr [],
    wsOpen := true }

/-- Concrete message for the C1 witness: heatZones provided, the others
omitted. -/
def wMsgC1 : LiveMsg :=
  { locations := .undef, heatZones := .arr [.num 1], crowdParticles := .undef }

/-- Witness for C1 at a concrete store and message. -/
theorem reconciler_partial_merge_witness :
    ((wMsgC1.locations = .undef →
        (handleParsed wStoreC1 wMsgC1).locations = wStoreC1.locations) ∧
     (∀ xs, wMsgC1.locations = .arr xs →
        (handleParsed wStoreC1 wMsgC1).locations = .arr xs)) ∧
    ((wMsgC1.heatZones = .undef →
        (handleParsed wStoreC1 wMsgC1).heatZones = wStoreC1.heatZones) ∧
     (∀ xs, wMsgC1.heatZones = .arr xs →
        (handleParsed wStoreC1 wMsgC1).heatZones = .arr xs)) ∧
    ((wMsgC1.crowdParticles = .undef →
        (handleParsed wStoreC1 wMsgC1).crowdParticles = wStoreC1.crowdParticles) ∧
     (∀ xs, wMsgC1.crowdParticles = .arr xs →
        (handleParsed wStoreC1 wMsgC1).crowdParticles = .arr xs)) :=
  reconciler_partial_merge wStoreC1 wMsgC1 (Or.inl rfl)
    (Or.inr ⟨[.num 1], rfl⟩) (Or.inl rfl)

/-- The C5 scenario message: a partial update whose heatZones list holds a
single zone with the out-of-range intensity `2.0`. -/
def msgC5 : LiveMsg :=
  { locations := .undef
    heatZones := .arr [.obj [("center", .arr [.num 0, .num 0, .num 0]),
      ("radius", .num (1/10)), ("intensity", .num 2)]]
    crowdParticles := .undef }

/-- C5: applying a partial update whose heatZones list contains an
out-of-range intensity (2.0) stores that value exactly as given — the
handler performs no clamping — while the stored locations and particles
remain unchanged. -/
theorem applyPartial_stores_unclamped (s : StoreState) :
    (handleParsed s msgC5).heatZones =
      .arr [.obj [("center", .arr [.num 0, .num 0, .num 0]),
        ("radius", .num (1/10)), ("intensity", .num 2)]] ∧
    (handleParsed s msgC5).locations = s.locations ∧
    (handleParsed s msgC5).crowdParticles = s.crowdParticles := by
  refine ⟨?_, ?_, ?_⟩ <;> simp [handleParsed, msgC5, JsVal.truthy]

/-- Concrete store for the C6 counterexample. -/
def cStoreC6 : StoreState :=
  { locations := .arr [], heatZones := .arr [], crowdParticles := .arr [],
    wsOpen := true }

/-- C6 counterexample: on a malformed inbound message the handler emits no
log line whatsoever (the `catch` block is empty), so the claim's "discarded
and logged" is false — nothing is logged. -/
theorem malformed_message_not_logged :
    (onMessage cStoreC6 (Except.error ())).2 = [] := rfl

/-- C6 (amended): for every inbound live-feed message that fails to parse,
the message is discarded silently (nothing is logged), no reconciliation
occurs, the stored snapshot is completely unchanged, no exception escapes
the handler, and the connection stays open (`wsOpen` untouched). -/
theorem malformed_message_silent_noop (s : StoreState) (u : Unit) :
    onMessage s (Except.error u) = (s, []) := rfl

/-- C10: field presence is decided by truthiness, not key presence: a
message field that is present but falsy (`null`, `false`, `0`) is treated
exactly like an absent field — the stored field is kept unchanged — and no
inbound message can ever set a stored field to `null` or `undefined` once
the store holds non-nullish fields. -/
theorem truthy_field_gating (s : StoreState) (m : LiveMsg)
    (h1 : s.locations ≠ .null ∧ s.locations ≠ .undef)
    (h2 : s.heatZones ≠ .null ∧ s.heatZones ≠ .undef)
    (h3 : s.crowdParticles ≠ .null ∧ s.crowdParticles ≠ .undef) :
    JsVal.truthy .null = false ∧ JsVal.truthy (.bool false) = false ∧
    JsVal.truthy (.num 0) = false ∧ JsVal.truthy .undef = false ∧
    (m.locations.truthy = false →
      (handleParsed s m).locations = s.locations) ∧
    (m.heatZones.truthy = false →
      (handleParsed s m).heatZones = s.heatZones) ∧
    (m.crowdParticles.truthy = false →
      (handleParsed s m).crowdParticles = s.crowdParticles) ∧
    ((handleParsed s m).locations ≠ .null ∧
      (handleParsed s m).locations ≠ .undef) ∧
    ((handleParsed s m).heatZones ≠ .null ∧
      (handleParsed s m).heatZones ≠ .undef) ∧
    ((handleParsed s m).crowdParticles ≠ .null ∧
      (handleParsed s m).crowdParticles ≠ .undef) := by
  refine ⟨rfl, rfl, by simp [JsVal.truthy], rfl, fun h => ?_, fun h => ?_,
    fun h => ?_, ?_, ?_, ?_⟩
  · simp [handleParsed, h]
  · simp [handleParsed, h]
  · simp [handleParsed, h]
  · by_cases h : m.locations.truthy = true
    · simpa [handleParsed, h] using truthy_ne_nullish _ h
    · simpa [handleParsed, h] using h1
  · by_cases h : m.heatZones.truthy = true
    · simpa [handleParsed, h] using truthy_ne_nullish _ h
    · simpa [handleParsed, h] using h2
  · by_cases h : m.crowdParticles.truthy = true
    · simpa [handleParsed, h] using truthy_ne_nullish _ h
    · simpa [handleParsed, h] using h3

/-- Concrete store for the C10 witness. -/
def wStoreC10 : StoreState :=
  { locations := .arr [.num 1], heatZones := .arr [], crowdParticles := .arr [],
    wsOpen := true }

/-- Concrete message for the C10 witness: all three fields present but
falsy (`null`, `false`, `0`). -/
def wMsgC10 : LiveMsg :=
  { locations := .null, heatZones := .bool false, crowdParticles := .num 0 }

/-- Witness for C10 at a concrete store and a message with falsy fields. -/
theorem truthy_field_gating_witness :
    JsVal.truthy .null = false ∧ JsVal.truthy (.bool false) = false ∧
    JsVal.truthy (.num 0) = false ∧ JsVal.truthy .undef = false ∧
    (wMsgC10.locations.truthy = false →
      (handleParsed wStoreC10 wMsgC10).locations = wStoreC10.locations) ∧
    (wMsgC10.heatZones.truthy = false →
      (handleParsed wStoreC10 wMsgC10).heatZones = wStoreC10.heatZones) ∧
    (wMsgC10.crowdParticles.truthy = false →
      (handleParsed wStoreC10 wMsgC10).crowdParticles = wStoreC10.crowdParticles) ∧
    ((handleParsed wStoreC10 wMsgC10).locations ≠ .null ∧
      (handleParsed wStoreC10 wMsgC10).locations ≠ .undef) ∧
    ((handleParsed wStoreC10 wMsgC10).heatZones ≠ .null ∧
      (handleParsed wStoreC10 wMsgC10).heatZones ≠ .undef) ∧
    ((handleParsed wStoreC10 wMsgC10).crowdParticles ≠ .null ∧
      (handleParsed wStoreC10 wMsgC10).crowdParticles ≠ .undef) :=
  truthy_field_gating wStoreC10 wMsgC10 (by simp [wStoreC10])
    (by simp [wStoreC10]) (by simp [wStoreC10])

/-- One perturbed zone has intensity in `[0.05, 1]`, whatever the input
intensity and the random draw. -/
theorem tickZone_intensity_bounds (r : ℚ) (z : HeatZoneData) :
    1/20 ≤ (tickZone r z).intensity ∧ (tickZone r z).intensity ≤ 1 := by
  refine ⟨le_max_left _ _, max_le (by norm_num) (min_le_left _ _)⟩

/-- One perturbed particle has x and z in `[-2, 2]`, whatever the input
position and the random draws. -/
theorem tickParticle_position_bounds (rx rz : ℚ) (p : ParticleData) :
    -2 ≤ (tickParticle rx rz p).position.1 ∧
    (tickParticle rx rz p).position.1 ≤ 2 ∧
    -2 ≤ (tickParticle rx rz p).position.2.2 ∧
    (tickParticle rx rz p).position.2.2 ≤ 2 := by
  refine ⟨le_max_left _ _, max_le (by norm_num) (min_le_left _ _),
    le_max_left _ _, max_le (by norm_num) (min_le_left _ _)⟩

/-- Every element of a perturbed zone list satisfies the intensity bounds. -/
theorem tickZonesList_bounds (r : Nat → ℚ) :
    ∀ (i : Nat) (zs : List HeatZoneData), ∀ z ∈ tickZonesList r i zs,
      1/20 ≤ z.intensity ∧ z.intensity ≤ 1
  | _, [], z, hz => by simp [tickZonesList] at hz
  | i, z0 :: zs, z, hz => by
    simp only [tickZonesList, List.mem_cons] at hz
    rcases hz with rfl | hz
    · exact tickZone_intensity_bounds (r i) z0
    · exact tickZonesList_bounds r (i + 1) zs z hz

/-- Every element of a perturbed particle list satisfies the position
bounds. -/
theorem tickParticlesList_bounds (rx rz : Nat → ℚ) :
    ∀ (i : Nat) (ps : List ParticleData), ∀ p ∈ tickParticlesList rx rz i ps,
      -2 ≤ p.position.1 ∧ p.position.1 ≤ 2 ∧
      -2 ≤ p.position.2.2 ∧ p.position.2.2 ≤ 2
  | _, [], p, hp => by simp [tickParticlesList] at hp
  | i, p0 :: ps, p, hp => by
    simp only [tickParticlesList, List.mem_cons] at hp
    rcases hp with rfl | hp
    · exact tickParticle_position_bounds (rx i) (rz i) p0
    · exact tickParticlesList_bounds rx rz (i + 1) ps p hp

/-- A perturbed zone list has the length of its input. -/
theorem tickZonesList_length (r : Nat → ℚ) :
    ∀ (i : Nat) (zs : List HeatZoneData),
      (tickZonesList r i zs).length = zs.length
  | _, [] => by simp [tickZonesList]
  | i, _ :: zs => by simp [tickZonesList, tickZonesList_length r (i + 1) zs]

/-- A perturbed particle list has the length of its input. -/
theorem tickParticlesList_length (rx rz : Nat → ℚ) :
    ∀ (i : Nat) (ps : List ParticleData),
      (tickParticlesList rx rz i ps).length = ps.length
  | _, [] => by simp [tickParticlesList]
  | i, _ :: ps => by
    simp [tickParticlesList, tickParticlesList_length rx rz (i + 1) ps]

/-- After the `setHeatZones` updater fires once, every stored zone has
intensity in `[0.05, 1]`. -/
theorem tickHeatZones_bounds (r : Nat → ℚ) (prev : Option (List HeatZoneData)) :
    ∀ z ∈ (tickHeatZones r prev).getD [], 1/20 ≤ z.intensity ∧ z.intensity ≤ 1 := by
  intro z hz
  unfold tickHeatZones at hz
  by_cases hlen : (tickZonesList r 0 (prev.getD [])).length ≠ 0
  · rw [if_pos hlen, Option.getD_some] at hz
    exact tickZonesList_bounds r 0 _ z hz
  · rw [if_neg hlen] at hz
    push_neg at hlen
    rw [tickZonesList_length, List.length_eq_zero] at hlen
    rw [hlen] at hz
    simp at hz

/-- After the `setCrowdParticles` updater fires once, every stored particle
has x and z in `[-2, 2]`. -/
theorem tickCrowdParticles_bounds (rx rz : Nat → ℚ)
    (prev : Option (List ParticleData)) :
    ∀ p ∈ (tickCrowdParticles rx rz prev).getD [],
      -2 ≤ p.position.1 ∧ p.position.1 ≤ 2 ∧
      -2 ≤ p.position.2.2 ∧ p.position.2.2 ≤ 2 := by
  intro p hp
  unfold tickCrowdParticles at hp
  by_cases hlen : (tickParticlesList rx rz 0 (prev.getD [])).length ≠ 0
  · rw [if_pos hlen, Option.getD_some] at hp
    exact tickParticlesList_bounds rx rz 0 _ p hp
  · rw [if_neg hlen] at hp
    push_neg at hlen
    rw [tickParticlesList_length, List.length_eq_zero] at hlen
    rw [hlen] at hp
    simp at hp

/-- C2: for every snapshot, after any number `n ≥ 1` of successive fallback
ticks every stored heat-zone intensity lies in `[0.05, 1]` (hence is never
exactly 0 and never above 1) and every stored particle's x and z lie in
`[-2, 2]`; moreover each tick's intensity perturbation
`(Math.random() - 0.5) * 0.1` lies in `[-0.05, 0.05]` and each position
perturbation `(Math.random() - 0.5) * 0.02` lies in `[-0.01, 0.01]` for
any `Math.random()` result in `[0, 1)`. -/
theorem fallback_ticks_bounded (s : SimSnapshot) (rz rpx rpz : Nat → Nat → ℚ)
    (n : Nat) (hn : 1 ≤ n) :
    (∀ z ∈ (iterTicks rz rpx rpz n s).heatZones.getD [],
      1/20 ≤ z.intensity ∧ z.intensity ≤ 1) ∧
    (∀ p ∈ (iterTicks rz rpx rpz n s).particles.getD [],
      -2 ≤ p.position.1 ∧ p.position.1 ≤ 2 ∧
      -2 ≤ p.position.2.2 ∧ p.position.2.2 ≤ 2) ∧
    (∀ r : ℚ, 0 ≤ r → r < 1 →
      -(1/20) ≤ intensityDelta r ∧ intensityDelta r ≤ 1/20 ∧
      -(1/100) ≤ posDelta r ∧ posDelta r ≤ 1/100) := by
  obtain ⟨m, rfl⟩ : ∃ m, n = m + 1 := ⟨n - 1, by omega⟩
  refine ⟨?_, ?_, ?_⟩
  · exact tickHeatZones_bounds (rz m) _
  · exact tickCrowdParticles_bounds (rpx m) (rpz m) _
  · intro r h0 h1
    unfold intensityDelta posDelta
    refine ⟨by linarith, by linarith, by linarith, by linarith⟩

/-- Concrete out-of-bounds snapshot for the C2 witness: one zone with
intensity 5, one particle at x = 3, z = -3. -/
def wSnapC2 : SimSnapshot :=
  { locations := none
    heatZones := some [{ center := (0, 0, 0), radius := 1, intensity := 5 }]
    particles := some [{ position := (3, 1/50, -3), color := "#10b981", speed := 1 }]
    isLive := false }

/-- Witness for C2: one tick with constant random draw 1/2 on a snapshot
that starts out of bounds. -/
theorem fallback_ticks_bounded_witness :
    1 ≤ 1 ∧
    ((∀ z ∈ (iterTicks (fun _ _ => 1/2) (fun _ _ => 1/2) (fun _ _ => 1/2) 1
        wSnapC2).heatZones.getD [], 1/20 ≤ z.intensity ∧ z.intensity ≤ 1) ∧
     (∀ p ∈ (iterTicks (fun _ _ => 1/2) (fun _ _ => 1/2) (fun _ _ => 1/2) 1
        wSnapC2).particles.getD [],
        -2 ≤ p.position.1 ∧ p.position.1 ≤ 2 ∧
        -2 ≤ p.position.2.2 ∧ p.position.2.2 ≤ 2) ∧
     (∀ r : ℚ, 0 ≤ r → r < 1 →
        -(1/20) ≤ intensityDelta r ∧ intensityDelta r ≤ 1/20 ∧
        -(1/100) ≤ posDelta r ∧ posDelta r ≤ 1/100)) :=
  ⟨le_refl 1, fallback_ticks_bounded wSnapC2 (fun _ _ => 1/2) (fun _ _ => 1/2)
    (fun _ _ => 1/2) 1 (le_refl 1)⟩

/-- C4: a single `bootstrapDefaults()` call produces a snapshot with exactly
4 locations, 4 heat zones, 200 particles and simulated status
(`isLive = false`); each seeded particle whose position has Manhattan
distance `|x| + |z| < 1.5` from the origin carries the high-density color
`#ef4444`, and every other seeded particle the low-density color
`#10b981`. -/
theorem seed_snapshot_shape (r : Nat → ℚ) :
    ((bootstrapDefaults r initState).locations.getD []).length = 4 ∧
    ((bootstrapDefaults r initState).heatZones.getD []).length = 4 ∧
    ((bootstrapDefaults r initState).particles.getD []).length = 200 ∧
    (bootstrapDefaults r initState).isLive = false ∧
    ∀ p ∈ (bootstrapDefaults r initState).particles.getD [],
      (|p.position.1| + |p.position.2.2| < 3/2 → p.color = "#ef4444") ∧
      (¬(|p.position.1| + |p.position.2.2| < 3/2) → p.color = "#10b981") := by
  refine ⟨rfl, rfl, by
    simp [bootstrapDefaults, seedParticles, initState], rfl, ?_⟩
  intro p hp
  simp only [bootstrapDefaults, Option.getD_some, seedParticles,
    List.mem_map, List.mem_range] at hp
  obtain ⟨i, _, rfl⟩ := hp
  unfold seedParticle
  by_cases hcond :
      |(r (3 * i) - 1/2) * 4| + |(r (3 * i + 1) - 1/2) * 4| < 3/2
  · simp only [if_pos hcond]
    norm_num
    exact fun h => absurd hcond (not_lt.mpr h)
  · simp only [if_neg hcond]
    norm_num
    exact fun h => absurd h hcond

/-- Witness for C4 at a concrete random stream. -/
theorem seed_snapshot_shape_witness :
    ((bootstrapDefaults (fun _ => 1/2) initState).locations.getD []).length = 4 ∧
    ((bootstrapDefaults (fun _ => 1/2) initState).heatZones.getD []).length = 4 ∧
    ((bootstrapDefaults (fun _ => 1/2) initState).particles.getD []).length = 200 ∧
    (bootstrapDefaults (fun _ => 1/2) initState).isLive = false ∧
    ∀ p ∈ (bootstrapDefaults (fun _ => 1/2) initState).particles.getD [],
      (|p.position.1| + |p.position.2.2| < 3/2 → p.color = "#ef4444") ∧
      (¬(|p.position.1| + |p.position.2.2| < 3/2) → p.color = "#10b981") :=
  seed_snapshot_shape (fun _ => 1/2)

/-- WebSocket events never install or remove the fallback timer. -/
theorem applyWsEvent_timerOn (s : EffectState) (e : WsEvent) :
    (applyWsEvent s e).timerOn = s.timerOn := by
  unfold applyWsEvent
  by_cases h : s.wsCreated = true
  · rw [if_pos h]; cases e <;> rfl
  · rw [if_neg h]

/-- WebSocket events are no-ops when no socket was created. -/
theorem applyWsEvent_no_ws (s : EffectState) (e : WsEvent)
    (h : s.wsCreated = false) : applyWsEvent s e = s := by
  unfold applyWsEvent
  rw [h]
  simp

/-- Folding events preserves `timerOn`. -/
theorem foldl_timerOn :
    ∀ (evts : List WsEvent) (s : EffectState),
      (evts.foldl applyWsEvent s).timerOn = s.timerOn
  | [], _ => rfl
  | e :: evts, s => by
    rw [List.foldl_cons, foldl_timerOn evts, applyWsEvent_timerOn]

/-- Folding events over a socketless state changes nothing. -/
theorem foldl_no_ws :
    ∀ (evts : List WsEvent) (s : EffectState), s.wsCreated = false →
      evts.foldl applyWsEvent s = s
  | [], _, _ => rfl
  | e :: evts, s, h => by
    rw [List.foldl_cons, applyWsEvent_no_ws s e h, foldl_no_ws evts s h]

/-- C3 counterexample: with a configured feed URL, after the socket errors
(or closes) the system is not in live mode, yet the fallback timer was
never installed — contrary to the claim, the simulator does not drive
periodic mutation after a configured feed endpoint fails. -/
theorem configured_feed_failure_no_fallback :
    (runEffect (some "wss://feed.example") [WsEvent.wsError]).isLive = false ∧
    (runEffect (some "wss://feed.example") [WsEvent.wsError]).timerOn = false :=
  ⟨rfl, rfl⟩

/-- C3 (amended): the fallback timer is installed exactly when no feed URL
is configured; in that configuration the system can never enter live mode,
so the timer runs only while no live connection is active and keeps running
(it is torn down only on unmount, never re-seeded). When a URL is
configured the timer is never installed, so after the feed fails or closes
the system leaves live mode but no fallback tick runs. -/
theorem fallback_timer_iff_no_url (url : Option String) (evts : List WsEvent) :
    (runEffect url evts).timerOn = url.isNone ∧
    ((runEffect url evts).timerOn && (runEffect url evts).isLive) = false ∧
    (runEffect none evts).isLive = false := by
  have htimer : (runEffect url evts).timerOn = url.isNone := by
    rw [runEffect, foldl_timerOn]
    rfl
  have hnone : (runEffect none evts).isLive = false := by
    rw [runEffect, foldl_no_ws evts (setupEffect none) rfl]
    rfl
  refine ⟨htimer, ?_, hnone⟩
  cases url with
  | none => rw [hnone]; simp
  | some u => rw [htimer]; rfl

/-- The two nested loop ranges have `2*r + 1` offsets each. -/
theorem offsets_length (r : Nat) : (offsets r).length = 2 * r + 1 := by
  rw [offsets, List.length_map, List.length_range]

/-- An integer is a loop offset exactly when it lies in `[-r, r]`. -/
theorem mem_offsets (r : Nat) (x : ℤ) :
    x ∈ offsets r ↔ -(r : ℤ) ≤ x ∧ x ≤ r := by
  unfold offsets
  rw [List.mem_map]
  constructor
  · rintro ⟨i, hi, rfl⟩
    rw [List.mem_range] at hi
    omega
  · rintro ⟨h1, h2⟩
    refine ⟨(x + r).toNat, ?_, ?_⟩
    · rw [List.mem_range]
      omega
    · omega

/-- A flat map whose pieces all have length `n` has length `l.length * n`. -/
theorem length_flatMap_const {A B : Type} (n : Nat) (f : A → List B) :
    ∀ l : List A, (∀ a ∈ l, (f a).length = n) →
      (l.flatMap f).length = l.length * n
  | [], _ => by simp
  | a :: l, h => by
    rw [List.flatMap_cons, List.length_append, h a (by simp),
      length_flatMap_const n f l (fun b hb => h b (by simp [hb])),
      List.length_cons]
    ring

/-- The tile batch always has `(2*r+1)^2` requests. -/
theorem tileGrid_length (cx cy : ℤ) (r : Nat) :
    (tileGrid cx cy r).length = (2 * r + 1) ^ 2 := by
  have h := length_flatMap_const (2 * r + 1)
    (fun dy => (offsets r).map (fun dx => (cx + dx, cy + dy))) (offsets r)
    (fun dy _ => by rw [List.length_map, offsets_length])
  rw [tileGrid, h, offsets_length]
  ring

/-- C8: one load requests exactly `(2*tilesRadius+1)^2` tiles, they form
the square grid of all addresses within `tilesRadius` of the center tile on
both axes, and in particular `tilesRadius = 1` requests exactly 9 tiles and
`tilesRadius = 0` exactly 1. -/
theorem tile_batch_square_grid (cx cy : ℤ) (r : Nat) :
    (tileGrid cx cy r).length = (2 * r + 1) ^ 2 ∧
    (∀ a b : ℤ, (a, b) ∈ tileGrid cx cy r ↔
      -(r : ℤ) ≤ a - cx ∧ a - cx ≤ r ∧ -(r : ℤ) ≤ b - cy ∧ b - cy ≤ r) ∧
    (tileGrid cx cy 1).length = 9 ∧ (tileGrid cx cy 0).length = 1 := by
  refine ⟨tileGrid_length cx cy r, ?_, tileGrid_length cx cy 1,
    tileGrid_length cx cy 0⟩
  intro a b
  simp only [tileGrid, List.mem_flatMap, List.mem_map, mem_offsets,
    Prod.mk.injEq]
  constructor
  · rintro ⟨dy, ⟨hy1, hy2⟩, dx, ⟨hx1, hx2⟩, h1, h2⟩
    omega
  · rintro ⟨h1, h2, h3, h4⟩
    exact ⟨b - cy, ⟨by omega, by omega⟩, a - cx, ⟨by omega, by omega⟩,
      by omega, by omega⟩

/-- If some tile in the batch fails, the join rejects. -/
theorem fetchAll_error {Img : Type} (fetch : ℤ × ℤ → Except TileFetchError Img) :
    ∀ l : List (ℤ × ℤ), (∃ t ∈ l, ∃ e, fetch t = .error e) →
      ∃ e, fetchAll fetch l = .error e
  | [], h => by simp at h
  | t :: ts, h => by
    rcases h with ⟨t0, ht0, e0, he0⟩
    rw [List.mem_cons] at ht0
    rcases ht0 with rfl | hmem
    · exact ⟨e0, by rw [fetchAll, he0]⟩
    · cases hf : fetch t with
      | error e => exact ⟨e, by rw [fetchAll, hf]⟩
      | ok img =>
        obtain ⟨e, he⟩ := fetchAll_error fetch ts ⟨t0, hmem, e0, he0⟩
        exact ⟨e, by rw [fetchAll, hf, he]⟩

/-- A successful join yields exactly one image per requested tile. -/
theorem fetchAll_ok_length {Img : Type} (fetch : ℤ × ℤ → Except TileFetchError Img) :
    ∀ (l : List (ℤ × ℤ)) (imgs : List Img),
      fetchAll fetch l = .ok imgs → imgs.length = l.length
  | [], imgs, h => by
    rw [fetchAll] at h
    cases h
    rfl
  | t :: ts, imgs, h => by
    rw [fetchAll] at h
    cases hf : fetch t with
    | error e => rw [hf] at h; cases h
    | ok img =>
      rw [hf] at h
      cases hr : fetchAll fetch ts with
      | error e => rw [hr] at h; cases h
      | ok imgs2 =>
        rw [hr] at h
        cases h
        rw [List.length_cons, List.length_cons,
          fetchAll_ok_length fetch ts imgs2 hr]

/-- C7: every tile request of the batch is issued and joined before
compositing — a successful compose consumes exactly one image per requested
tile — and if any constituent tile request fails, the whole compose fails
with a `TileFetchError`, no composited image is produced, and the caller
retains the previous texture. -/
theorem compose_all_or_nothing {Img : Type}
    (fetch : ℤ × ℤ → Except TileFetchError Img) (cx cy : ℤ) (r : Nat)
    (prev : Option (List Img))
    (hfail : ∃ t ∈ tileGrid cx cy r, ∃ e, fetch t = .error e) :
    (∃ e, composeTiles fetch cx cy r = .error e) ∧
    (∀ imgs, composeTiles fetch cx cy r ≠ .ok imgs) ∧
    applyComposite prev (composeTiles fetch cx cy r) = prev ∧
    (∀ imgs, fetchAll fetch (tileGrid cx cy r) = .ok imgs →
      imgs.length = (2 * r + 1) ^ 2) := by
  obtain ⟨e, he⟩ := fetchAll_error fetch (tileGrid cx cy r) hfail
  rw [composeTiles]
  refine ⟨⟨e, he⟩, ?_, ?_, ?_⟩
  · intro imgs hok
    rw [he] at hok
    cases hok
  · rw [he]
    rfl
  · intro imgs hok
    rw [fetchAll_ok_length fetch _ imgs hok, tileGrid_length cx cy r]

/-- Concrete fetch for the C7 witness: the center tile rejects, every other
tile resolves. -/
def wFetchC7 : ℤ × ℤ → Except TileFetchError Nat :=
  fun t => if t = (0, 0) then .error { msg := "tile 0,0 failed" } else .ok 7

/-- Witness for C7: a radius-1 batch around tile (0,0) with one failing
tile. -/
theorem compose_all_or_nothing_witness :
    (∃ e, composeTiles wFetchC7 0 0 1 = .error e) ∧
    (∀ imgs, composeTiles wFetchC7 0 0 1 ≠ .ok imgs) ∧
    applyComposite (some [42]) (composeTiles wFetchC7 0 0 1) = some [42] ∧
    (∀ imgs, fetchAll wFetchC7 (tileGrid 0 0 1) = .ok imgs →
      imgs.length = (2 * 1 + 1) ^ 2) :=
  compose_all_or_nothing wFetchC7 0 0 1 (some [42])
    ⟨(0, 0), by decide, { msg := "tile 0,0 failed" }, by rw [wFetchC7]; rfl⟩

/-- C9: `lonLatToTile` computes the standard Web-Mercator tile address —
`x = ⌊(lon+180)/360 * 2^zoom⌋` and
`y = ⌊(1 - ln(tan(latRad) + 1/cos(latRad))/π)/2 * 2^zoom⌋` with
`latRad = lat*π/180` — and in particular `lonLatToTile 0 0 1 = (1, 1)`. -/
theorem lonLatToTile_formula :
    (∀ (lon lat : ℝ) (z : ℕ), lonLatToTile lon lat z =
      (⌊(lon + 180) / 360 * 2 ^ z⌋,
       ⌊(1 - Real.log (Real.tan (lat * Real.pi / 180) +
           1 / Real.cos (lat * Real.pi / 180)) / Real.pi) / 2 * 2 ^ z⌋)) ∧
    lonLatToTile 0 0 1 = (1, 1) := by
  refine ⟨fun lon lat z => rfl, ?_⟩
  unfold lonLatToTile
  norm_num [Real.tan_zero, Real.cos_zero, Real.log_one, Prod.ext_iff]
